import Mathlib

/-!
Verification development for the go-webdl/smoothstreaming repository.

The definitions below are a shallow embedding of the Go sources:
`moov_processor.go`, `errors.go`, and the manifest data model
(`smoothstreaming.go`, partially present).  Go byte slices are modelled as
`List Nat` (each entry an octet value), Go machine integers as `Nat` with
explicit truncation (`u16`, `u32`, `u64`) where the source narrows or can
overflow, and fallible Go functions as `Except Err`.  A Go runtime panic
(index out of range) is modelled by the dedicated error value
`Err.indexOutOfRange`, distinct from every error the code actually returns.
-/

set_option autoImplicit false

/-- Truncation to an unsigned 16-bit value, modelling Go `uint16(x)`. -/
def u16 (n : Nat) : Nat := n % 2 ^ 16

/-- Truncation to an unsigned 32-bit value, modelling Go `uint32(x)`. -/
def u32 (n : Nat) : Nat := n % 2 ^ 32

/-- Truncation to an unsigned 64-bit value, modelling Go `uint64` arithmetic. -/
def u64 (n : Nat) : Nat := n % 2 ^ 64

/-- mp4.Avc1FourCC. -/
def Avc1FourCC : String := "avc1"

/-- mp4.Hvc1FourCC. -/
def Hvc1FourCC : String := "hvc1"

/-- mp4.Hev1FourCC. -/
def Hev1FourCC : String := "hev1"

/-- mp4.EncvBoxType, the generic encrypted-visual sample entry type. -/
def EncvBoxType : String := "encv"

/-- mp4.CencFourCC, the common-encryption scheme type. -/
def CencFourCC : String := "cenc"

/-- smoothstreaming.VideoStream (Go `StreamType` is a string type). -/
def VideoStream : String := "video"

/-- smoothstreaming.AudioStream. -/
def AudioStream : String := "audio"

/-- smoothstreaming.TextStream. -/
def TextStream : String := "text"

/-- Errors of the embedded code.  `unknownCodec` and `invalidParam` model
`fmt.Errorf` results wrapping the sentinels `ErrUnknownCodec` and
`ErrInvalidParam` of `errors.go`; `missingHevcSps` models the bare
`fmt.Errorf("cannot find hevc sps nalu")`; `indexOutOfRange` models a Go
runtime panic (an abort, not a returned error value). -/
inductive Err where
  | unknownCodec (codec : String)
  | invalidParam (context : String)
  | missingHevcSps
  | indexOutOfRange
deriving DecidableEq

/-- The rendered Go error message for each returned error value. -/
def errMessage : Err → String
  | Err.unknownCodec c => "codec " ++ c ++ " not supported: codec not supported"
  | Err.invalidParam c => "invalid CodecPrivateData for " ++ c ++ ": invalid parameter"
  | Err.missingHevcSps => "cannot find hevc sps nalu"
  | Err.indexOutOfRange => "runtime error: index out of range"

/-- MoovProcessor of `moov_processor.go`.  `KID` models the Go `[16]byte`,
`SystemID` the `uuid.UUID`, `Language` the `language.Base` tag, and
`StreamType` the Go string type of the same name. -/
structure MoovProcessor where
  TrackID : Nat
  Codec : String
  Width : Nat
  Height : Nat
  Duration : Nat
  Timescale : Nat
  Language : String
  CodecPrivateData : List Nat
  StreamType : String
  StreamName : String
  Protected : Bool
  KID : List Nat
  SystemID : List Nat
  ProtectionInitData : List Nat

/-- avc.AVCDecoderConfigurationRecord, with each parameter set reduced to its
`NALUnit` byte slice. -/
structure AVCDecoderConfigurationRecord where
  configurationVersion : Nat
  avcProfileIndication : Nat
  profileCompatibility : Nat
  avcLevelIndication : Nat
  lengthSizeMinusOne : Nat
  sequenceParameterSets : List (List Nat)
  pictureParameterSets : List (List Nat)
deriving DecidableEq

/-- Modelled from the spec: the record produced by the external codec
library's `hevc.CreateHEVCDecoderConfigurationRecord` (record construction is
delegated to that library and is outside this repository); only the NAL-unit
lists the repository hands over are retained. -/
structure HEVCDecoderConfigurationRecord where
  vpsNalus : List (List Nat)
  spsNalus : List (List Nat)
  ppsNalus : List (List Nat)
deriving DecidableEq

/-- Modelled from the spec: the external codec library's HEVC record builder,
which the repository calls with "complete" reporting flags; its internal
bitstream derivation is out of scope, so it is modelled as packaging its
inputs. -/
def CreateHEVCDecoderConfigurationRecord (vps sps pps : List (List Nat))
    (_completeVps _completeSps _completePps : Bool) :
    Except Err HEVCDecoderConfigurationRecord :=
  Except.ok { vpsNalus := vps, spsNalus := sps, ppsNalus := pps }

/-- avc.NALU_SPS. -/
def AVC_NALU_SPS : Nat := 7

/-- avc.NALU_PPS. -/
def AVC_NALU_PPS : Nat := 8

/-- hevc.NALU_VPS. -/
def HEVC_NALU_VPS : Nat := 32

/-- hevc.NALU_SPS. -/
def HEVC_NALU_SPS : Nat := 33

/-- hevc.NALU_PPS. -/
def HEVC_NALU_PPS : Nat := 34

/-- Modelled from the spec: the external codec library's `avc.GetNaluType`
(the NAL-unit type is the low five bits of the first byte). -/
def avcGetNaluType (b : Nat) : Nat := b % 32

/-- Modelled from the spec: the external codec library's `hevc.GetNaluType`
(the NAL-unit type is bits 1..6 of the first byte). -/
def hevcGetNaluType (b : Nat) : Nat := b / 2 % 64

/-- Worker for `splitMarker`: returns the segment up to the first occurrence
of the 4-byte marker `00 00 00 01` and the list of the remaining
marker-delimited segments. -/
def splitMarkerAux : List Nat → List Nat × List (List Nat)
  | [] => ([], [])
  | 0 :: 0 :: 0 :: 1 :: rest =>
    ([], (splitMarkerAux rest).1 :: (splitMarkerAux rest).2)
  | b :: rest => ((b :: (splitMarkerAux rest).1), (splitMarkerAux rest).2)

/-- Go `bytes.Split(data, []byte{0, 0, 0, 1})`: the segments around each
successive leftmost occurrence of the marker.  The result is always
non-empty (the segment before the first marker is the head). -/
def splitMarker (data : List Nat) : List (List Nat) :=
  (splitMarkerAux data).1 :: (splitMarkerAux data).2

/-- The classification loop of `CreateAvcCMp4Box`: walk the NAL units after
the first segment, reading `nalu[0]` (a panic on an empty segment), and
collect type-7 units as SPS and type-8 units as PPS in encounter order. -/
def classifyAvcNalus : List (List Nat) → Except Err (List (List Nat) × List (List Nat))
  | [] => Except.ok ([], [])
  | [] :: _ => Except.error Err.indexOutOfRange
  | (b :: bs) :: rest =>
    match classifyAvcNalus rest with
    | Except.error e => Except.error e
    | Except.ok r =>
      if avcGetNaluType b = AVC_NALU_SPS then Except.ok ((b :: bs) :: r.1, r.2)
      else if avcGetNaluType b = AVC_NALU_PPS then Except.ok (r.1, (b :: bs) :: r.2)
      else Except.ok r

/-- The profile-field reads of `CreateAvcCMp4Box`: bytes 1, 2, 3 of the first
SPS unit (a panic when that unit is shorter than 4 bytes), or zeros when no
SPS unit was collected. -/
def avcProfileFields : List (List Nat) → Except Err (Nat × Nat × Nat)
  | [] => Except.ok (0, 0, 0)
  | s :: _ =>
    match s with
    | _ :: a :: b :: c :: _ => Except.ok (a, b, c)
    | _ => Except.error Err.indexOutOfRange

/-- The classification loop of `CreateHvcCMp4Box`: walk the NAL units after
the first segment, reading `nalu[0]` (a panic on an empty segment), and
collect VPS (type 32), SPS (type 33) and PPS (type 34) units in encounter
order. -/
def classifyHevcNalus :
    List (List Nat) → Except Err (List (List Nat) × List (List Nat) × List (List Nat))
  | [] => Except.ok ([], [], [])
  | [] :: _ => Except.error Err.indexOutOfRange
  | (b :: bs) :: rest =>
    match classifyHevcNalus rest with
    | Except.error e => Except.error e
    | Except.ok r =>
      if hevcGetNaluType b = HEVC_NALU_VPS then Except.ok ((b :: bs) :: r.1, r.2.1, r.2.2)
      else if hevcGetNaluType b = HEVC_NALU_SPS then Except.ok (r.1, (b :: bs) :: r.2.1, r.2.2)
      else if hevcGetNaluType b = HEVC_NALU_PPS then Except.ok (r.1, r.2.1, (b :: bs) :: r.2.2)
      else Except.ok r

/-- The mp4 box tree, restricted to the typed box nodes this repository
constructs.  Each constructor mirrors the corresponding `mp4` struct and the
fields the repository sets; container boxes carry their ordered children as
set by `Mp4BoxReplaceChildren`/`Mp4BoxAppend`. -/
inductive Mp4Box where
  | fileType (majorBrand : String) (minorVersion : Nat) (compatibleBrands : List String)
  | movie (children : List Mp4Box)
  | movieHeader (version timescale duration rate volume : Nat) (matrix : List Int)
      (nextTrackID : Nat)
  | pssh (systemID : List Nat) (data : List Nat)
  | movieExtends (children : List Mp4Box)
  | trackExtends (trackID : Nat) (defaultSampleDescriptionIndex : Nat)
  | track (children : List Mp4Box)
  | trackHeader (version flags trackID duration volume : Nat) (matrix : List Int)
      (width height : Nat)
  | media (children : List Mp4Box)
  | mediaHeader (version timescale duration : Nat) (language : String)
  | handler (handlerType : String) (name : String)
  | mediaInformation (children : List Mp4Box)
  | videoMediaHeader
  | soundMediaHeader
  | dataInformation (children : List Mp4Box)
  | dataReference (children : List Mp4Box)
  | dataEntry (flags : Nat)
  | sampleTable (children : List Mp4Box)
  | sampleDescription (children : List Mp4Box)
  | timeToSample
  | sampleToChunk
  | chunkOffset
  | sampleSize
  | visualSampleEntry (type : String)
      (dataReferenceIndex width height horizResolution vertResolution frameCount : Nat)
      (compressorName : String) (depth : Nat) (children : List Mp4Box)
  | avcConfiguration (config : AVCDecoderConfigurationRecord)
  | hevcConfiguration (config : HEVCDecoderConfigurationRecord)
  | protectionSchemeInfo (children : List Mp4Box)
  | originalFormat (dataFormat : String)
  | schemeType (scheme : String) (schemeVersion : Nat)
  | schemeInformation (children : List Mp4Box)
  | trackEncryption (defaultIsProtected defaultPerSampleIVSize : Nat)
      (defaultKID : List Nat)

/-- mp4.FLAG_DREF_SAME_FILE. -/
def FLAG_DREF_SAME_FILE : Nat := 1

/-- mp4.FLAG_TKHD_TRACK_ENABLED combined with TRACK_IN_MOVIE and
TRACK_IN_PREVIEW, as set by `CreateTrakMp4Box`. -/
def TKHD_FLAGS : Nat := 7

/-- The unity transformation matrix written by the movie and track headers. -/
def unityMatrix : List Int :=
  [0x00010000, 0, 0, 0, 0x00010000, 0, 0, 0, 0x40000000]

/-- CreateAvcCMp4Box of `moov_processor.go`. -/
def CreateAvcCMp4Box (p : MoovProcessor) : Except Err Mp4Box :=
  let nalus := splitMarker p.CodecPrivateData
  if nalus.length < 1 then
    Except.error (Err.invalidParam ("avcC"))
  else
    match classifyAvcNalus nalus.tail with
    | Except.error e => Except.error e
    | Except.ok sp =>
    match avcProfileFields sp.1 with
    | Except.error e => Except.error e
    | Except.ok fields =>
    Except.ok (Mp4Box.avcConfiguration {
      configurationVersion := 1
      avcProfileIndication := fields.1
      profileCompatibility := fields.2.1
      avcLevelIndication := fields.2.2
      lengthSizeMinusOne := 3
      sequenceParameterSets := sp.1
      pictureParameterSets := sp.2 })

/-- CreateHvcCMp4Box of `moov_processor.go`. -/
def CreateHvcCMp4Box (p : MoovProcessor) : Except Err Mp4Box :=
  let nalus := splitMarker p.CodecPrivateData
  if nalus.length < 1 then
    Except.error (Err.invalidParam ("hvcC"))
  else
    match classifyHevcNalus nalus.tail with
    | Except.error e => Except.error e
    | Except.ok r =>
    if r.2.1.length = 0 then
      Except.error Err.missingHevcSps
    else
      match CreateHEVCDecoderConfigurationRecord r.1 r.2.1 r.2.2 true true true with
      | Except.error e => Except.error e
      | Except.ok conf => Except.ok (Mp4Box.hevcConfiguration conf)

/-- CreateSchiMp4Box of `moov_processor.go`. -/
def CreateSchiMp4Box (p : MoovProcessor) : Except Err Mp4Box :=
  Except.ok (Mp4Box.schemeInformation
    [Mp4Box.trackEncryption 1 8 p.KID])

/-- CreateSinfMp4Box of `moov_processor.go`. -/
def CreateSinfMp4Box (p : MoovProcessor) : Except Err Mp4Box :=
  match CreateSchiMp4Box p with
  | Except.error e => Except.error e
  | Except.ok schi =>
    Except.ok (Mp4Box.protectionSchemeInfo
      [Mp4Box.originalFormat p.Codec,
       Mp4Box.schemeType CencFourCC 0x00010000,
       schi])

/-- CreateAvc1Mp4Box of `moov_processor.go`: the visual sample entry has the
fixed `avc1` type, which is overwritten to `encv` when protected, and the
protection subtree is appended after the configuration box. -/
def CreateAvc1Mp4Box (p : MoovProcessor) : Except Err Mp4Box :=
  match CreateAvcCMp4Box p with
  | Except.error e => Except.error e
  | Except.ok avcC =>
    if p.Protected then
      match CreateSinfMp4Box p with
      | Except.error e => Except.error e
      | Except.ok sinf =>
        Except.ok (Mp4Box.visualSampleEntry EncvBoxType 1 (u16 p.Width) (u16 p.Height)
          72 72 1 ("AVC Coding") 0x0018 [avcC, sinf])
    else
      Except.ok (Mp4Box.visualSampleEntry Avc1FourCC 1 (u16 p.Width) (u16 p.Height)
        72 72 1 ("AVC Coding") 0x0018 [avcC])

/-- CreateHvc1Mp4Box of `moov_processor.go`: the visual sample entry's type is
`p.Codec` (hvc1 or hev1), overwritten to `encv` when protected. -/
def CreateHvc1Mp4Box (p : MoovProcessor) : Except Err Mp4Box :=
  match CreateHvcCMp4Box p with
  | Except.error e => Except.error e
  | Except.ok hvcC =>
    if p.Protected then
      match CreateSinfMp4Box p with
      | Except.error e => Except.error e
      | Except.ok sinf =>
        Except.ok (Mp4Box.visualSampleEntry EncvBoxType 1 (u16 p.Width) (u16 p.Height)
          72 72 1 ("HEVC Coding") 0x0018 [hvcC, sinf])
    else
      Except.ok (Mp4Box.visualSampleEntry p.Codec 1 (u16 p.Width) (u16 p.Height)
        72 72 1 ("HEVC Coding") 0x0018 [hvcC])

/-- CreateSampleEntryMp4Box of `moov_processor.go`. -/
def CreateSampleEntryMp4Box (p : MoovProcessor) : Except Err Mp4Box :=
  if p.Codec = Avc1FourCC then CreateAvc1Mp4Box p
  else if p.Codec = Hvc1FourCC ∨ p.Codec = Hev1FourCC then CreateHvc1Mp4Box p
  else Except.error (Err.unknownCodec p.Codec)

/-- CreateStsdMp4Box of `moov_processor.go`. -/
def CreateStsdMp4Box (p : MoovProcessor) : Except Err Mp4Box :=
  match CreateSampleEntryMp4Box p with
  | Except.error e => Except.error e
  | Except.ok sampleEntry => Except.ok (Mp4Box.sampleDescription [sampleEntry])

/-- CreateStblMp4Box of `moov_processor.go`. -/
def CreateStblMp4Box (p : MoovProcessor) : Except Err Mp4Box :=
  match CreateStsdMp4Box p with
  | Except.error e => Except.error e
  | Except.ok stsd =>
    Except.ok (Mp4Box.sampleTable
      [stsd, Mp4Box.timeToSample, Mp4Box.sampleToChunk, Mp4Box.chunkOffset,
       Mp4Box.sampleSize])

/-- CreateDrefMp4Box of `moov_processor.go`. -/
def CreateDrefMp4Box (_p : MoovProcessor) : Except Err Mp4Box :=
  Except.ok (Mp4Box.dataReference [Mp4Box.dataEntry FLAG_DREF_SAME_FILE])

/-- CreateDinfMp4Box of `moov_processor.go`. -/
def CreateDinfMp4Box (p : MoovProcessor) : Except Err Mp4Box :=
  match CreateDrefMp4Box p with
  | Except.error e => Except.error e
  | Except.ok dref => Except.ok (Mp4Box.dataInformation [dref])

/-- CreateMhdMp4Box of `moov_processor.go`: the optional media-header
variant; `none` models the nil box returned for stream types other than
video and audio (the Go error result is always nil). -/
def CreateMhdMp4Box (p : MoovProcessor) : Option Mp4Box :=
  if p.StreamType = VideoStream then some Mp4Box.videoMediaHeader
  else if p.StreamType = AudioStream then some Mp4Box.soundMediaHeader
  else none

/-- CreateMinfMp4Box of `moov_processor.go`: children are data-information
and sample-table, with the media-header variant prepended when present. -/
def CreateMinfMp4Box (p : MoovProcessor) : Except Err Mp4Box :=
  match CreateDinfMp4Box p with
  | Except.error e => Except.error e
  | Except.ok dinf =>
  match CreateStblMp4Box p with
  | Except.error e => Except.error e
  | Except.ok stbl =>
    match CreateMhdMp4Box p with
    | some m => Except.ok (Mp4Box.mediaInformation [m, dinf, stbl])
    | none => Except.ok (Mp4Box.mediaInformation [dinf, stbl])

/-- The handler-type switch of `CreateMdiaMp4Box`. -/
def handlerTypeFor (streamType : String) : String :=
  if streamType = VideoStream then "vide"
  else if streamType = AudioStream then "soun"
  else "meta"

/-- CreateMdiaMp4Box of `moov_processor.go`: the media header narrows the
timescale to `uint32` while the duration is the 64-bit product. -/
def CreateMdiaMp4Box (p : MoovProcessor) : Except Err Mp4Box :=
  match CreateMinfMp4Box p with
  | Except.error e => Except.error e
  | Except.ok minf =>
    Except.ok (Mp4Box.media
      [Mp4Box.mediaHeader 1 (u32 p.Timescale) (u64 (p.Duration * p.Timescale)) p.Language,
       Mp4Box.handler (handlerTypeFor p.StreamType) p.StreamName,
       minf])

/-- CreateMvhdMp4Box of `moov_processor.go`: version 1 (64-bit duration),
timescale narrowed to `uint32`, duration the 64-bit product. -/
def CreateMvhdMp4Box (p : MoovProcessor) : Except Err Mp4Box :=
  Except.ok (Mp4Box.movieHeader 1 (u32 p.Timescale) (u64 (p.Duration * p.Timescale))
    0x00010000 0x0100 unityMatrix (u32 (p.TrackID + 1)))

/-- CreatePsshMp4Box of `moov_processor.go`. -/
def CreatePsshMp4Box (p : MoovProcessor) : Except Err Mp4Box :=
  Except.ok (Mp4Box.pssh p.SystemID p.ProtectionInitData)

/-- CreateMvexMp4Box of `moov_processor.go`. -/
def CreateMvexMp4Box (p : MoovProcessor) : Except Err Mp4Box :=
  Except.ok (Mp4Box.movieExtends [Mp4Box.trackExtends p.TrackID 1])

/-- CreateTrakMp4Box of `moov_processor.go`. -/
def CreateTrakMp4Box (p : MoovProcessor) : Except Err Mp4Box :=
  match CreateMdiaMp4Box p with
  | Except.error e => Except.error e
  | Except.ok mdia =>
    Except.ok (Mp4Box.track
      [Mp4Box.trackHeader 1 TKHD_FLAGS p.TrackID (u64 (p.Duration * p.Timescale))
        0x0100 unityMatrix p.Width p.Height,
       mdia])

/-- CreateMoovMp4Box of `moov_processor.go`. -/
def CreateMoovMp4Box (p : MoovProcessor) : Except Err Mp4Box :=
  match CreateMvhdMp4Box p with
  | Except.error e => Except.error e
  | Except.ok mvhd =>
  match CreateTrakMp4Box p with
  | Except.error e => Except.error e
  | Except.ok trak =>
  match CreateMvexMp4Box p with
  | Except.error e => Except.error e
  | Except.ok mvex =>
    if p.Protected then
      match CreatePsshMp4Box p with
      | Except.error e => Except.error e
      | Except.ok pssh => Except.ok (Mp4Box.movie [mvhd, trak, mvex, pssh])
    else
      Except.ok (Mp4Box.movie [mvhd, trak, mvex])

/-- CreateFtypMp4Box of `moov_processor.go`. -/
def CreateFtypMp4Box (_p : MoovProcessor) : Except Err Mp4Box :=
  Except.ok (Mp4Box.fileType ("iso6") 1 [("isom"), ("iso6"), ("msdh")])

/-- CreateInitMp4Box of `moov_processor.go`. -/
def CreateInitMp4Box (p : MoovProcessor) : Except Err (Mp4Box × Mp4Box) :=
  match CreateFtypMp4Box p with
  | Except.error e => Except.error e
  | Except.ok ftyp =>
  match CreateMoovMp4Box p with
  | Except.error e => Except.error e
  | Except.ok moov => Except.ok (ftyp, moov)

/-- StreamFragment of the manifest data model: one manifest entry describing
1..repeatCount contiguous fragments (the spec's FragmentGroup).  All four
attributes are optional in the manifest. -/
structure FragmentGroup where
  number : Option Nat
  durationTicks : Option Nat
  startTimeTicks : Option Nat
  repeatCount : Option Nat
deriving DecidableEq

/-- A resolved fragment of the timeline: explicit start, duration, and
0-based sequence index (the spec's ResolvedFragment). -/
structure ResolvedFragment where
  startTimeTicks : Nat
  durationTicks : Nat
  sequenceIndex : Nat
deriving DecidableEq

/-- Timeline resolution failures. -/
inductive TimelineErr where
  | malformedTimeline
  | nonContiguousTimeline
deriving DecidableEq

/-- Modelled from the spec: the repeat expansion step of the TimelineResolver
(the resolver itself is not among the repository sources; only the
StreamFragment declarations are).  A group resolved to start `s` and duration
`d` with repeat count `r` emits `r` entries of duration `d` starting at
`s + k * d` for `k` in `[0, r)`. -/
def expandGroup (s d r : Nat) : List (Nat × Nat) :=
  (List.range r).map (fun k => (s + k * d, d))

/-- Modelled from the spec: the duration inference of the TimelineResolver.
An explicit duration wins; an implicit one is the next group's explicit start
minus this group's resolved start; for the last group it falls back to the
presentation duration minus the resolved start; otherwise it is underivable. -/
def inferredDuration (presDur start : Nat) (g : FragmentGroup)
    (rest : List FragmentGroup) : Option Nat :=
  match g.durationTicks with
  | some d => some d
  | none =>
    match rest with
    | g2 :: _ => g2.startTimeTicks.map (fun t2 => t2 - start)
    | [] => some (presDur - start)

/-- Modelled from the spec: the fold of the TimelineResolver over the ordered
FragmentGroup sequence (absent from the repository sources), carrying the
running edge `prevEnd`: resolve each group's start (explicit or the running
edge, with an explicit start before the edge reported as non-contiguous),
infer its duration, expand its repeat count, and advance the edge to the last
emitted entry's end. -/
def resolveGroups (presDur : Nat) : Nat → List FragmentGroup →
    Except TimelineErr (List (Nat × Nat))
  | _, [] => Except.ok []
  | prevEnd, g :: rest =>
    let start := g.startTimeTicks.getD prevEnd
    if g.startTimeTicks.isSome && decide (start < prevEnd) then
      Except.error TimelineErr.nonContiguousTimeline
    else
      match inferredDuration presDur start g rest with
      | none => Except.error TimelineErr.malformedTimeline
      | some d =>
        let r := g.repeatCount.getD 1
        match resolveGroups presDur (start + r * d) rest with
        | Except.error e => Except.error e
        | Except.ok tl => Except.ok (expandGroup start d r ++ tl)

/-- Modelled from the spec: the TimelineResolver entry point (absent from the
repository sources): resolve the groups from a zero running edge and assign
each emitted entry its 0-based position as sequence index. -/
def resolveTimeline (presDur : Nat) (groups : List FragmentGroup) :
    Except TimelineErr (List ResolvedFragment) :=
  match resolveGroups presDur 0 groups with
  | Except.error e => Except.error e
  | Except.ok pairs =>
    Except.ok (pairs.enum.map
      (fun e => { startTimeTicks := e.2.1, durationTicks := e.2.2, sequenceIndex := e.1 }))

/-- A baseline processor used by the concrete checks: an unprotected AVC
video track with empty codec private data. -/
def sampleP : MoovProcessor where
  TrackID := 1
  Codec := Avc1FourCC
  Width := 640
  Height := 480
  Duration := 30
  Timescale := 10000000
  Language := "und"
  CodecPrivateData := []
  StreamType := VideoStream
  StreamName := ""
  Protected := false
  KID := List.replicate 16 0
  SystemID := []
  ProtectionInitData := []

/-- Whether a marker-delimited segment is classified as an AVC SPS unit. -/
def isAvcSps (n : List Nat) : Bool :=
  match n with
  | b :: _ => decide (avcGetNaluType b = AVC_NALU_SPS)
  | [] => false

/-- Whether a marker-delimited segment is classified as an AVC PPS unit. -/
def isAvcPps (n : List Nat) : Bool :=
  match n with
  | b :: _ => decide (avcGetNaluType b = AVC_NALU_PPS)
  | [] => false

/-- Whether a marker-delimited segment is classified as an HEVC VPS unit. -/
def isHevcVps (n : List Nat) : Bool :=
  match n with
  | b :: _ => decide (hevcGetNaluType b = HEVC_NALU_VPS)
  | [] => false

/-- Whether a marker-delimited segment is classified as an HEVC SPS unit. -/
def isHevcSps (n : List Nat) : Bool :=
  match n with
  | b :: _ => decide (hevcGetNaluType b = HEVC_NALU_SPS)
  | [] => false

/-- Whether a marker-delimited segment is classified as an HEVC PPS unit. -/
def isHevcPps (n : List Nat) : Bool :=
  match n with
  | b :: _ => decide (hevcGetNaluType b = HEVC_NALU_PPS)
  | [] => false

/-- The NAL units of a processor's codec private data: the marker-delimited
segments after the discarded initial segment. -/
def naluSegments (p : MoovProcessor) : List (List Nat) :=
  (splitMarker p.CodecPrivateData).tail

/-- The spec's description of the AVC profile fields: profile indication,
profile compatibility and level indication are bytes 1, 2, 3 of the first
SPS unit, and all zero when no SPS unit is present. -/
def specAvcFields : List (List Nat) → Nat × Nat × Nat
  | (_ :: a :: b :: c :: _) :: _ => (a, b, c)
  | _ => (0, 0, 0)

/-- Whether the first collected SPS unit is long enough for the three
profile-field reads (vacuously true when no SPS unit is present). -/
def firstSpsReadable (sps : List (List Nat)) : Bool :=
  match sps with
  | [] => true
  | s :: _ => decide (4 ≤ s.length)

/-- The exact domain on which `CreateAvcCMp4Box` returns a value: every
segment after the first is non-empty and the first SPS unit, when present,
is at least 4 bytes long. -/
def avcCSucceeds (p : MoovProcessor) : Bool :=
  (naluSegments p).all (fun n => !n.isEmpty) &&
    firstSpsReadable ((naluSegments p).filter isAvcSps)

/-- An hev1-flavoured HEVC processor with a single SPS unit. -/
def pHev1 : MoovProcessor :=
  { sampleP with
    Codec := Hev1FourCC
    CodecPrivateData := [0, 0, 0, 1, 0x42] }

/-- An hvc1-flavoured HEVC processor with a single SPS unit. -/
def pHvc1 : MoovProcessor :=
  { sampleP with
    Codec := Hvc1FourCC
    CodecPrivateData := [0, 0, 0, 1, 0x42] }

/-- A protected AVC processor. -/
def pAvcProt : MoovProcessor := { sampleP with Protected := true }

/-- The AVC round-trip input of the spec: marker, SPS `67 42 00 1F`, marker,
PPS `68`. -/
def pAvcExample : MoovProcessor :=
  { sampleP with CodecPrivateData :=
      [0, 0, 0, 1, 0x67, 0x42, 0x00, 0x1F, 0, 0, 0, 1, 0x68] }

/-- An AVC processor whose single SPS unit is only 1 byte long. -/
def pShortSps : MoovProcessor :=
  { sampleP with CodecPrivateData := [0, 0, 0, 1, 0x67] }

/-- A processor requesting the unsupported fourCC `AC-3`. -/
def pAC3 : MoovProcessor := { sampleP with Codec := "AC-3" }

/-- An HEVC processor whose codec private data has no start-code marker. -/
def pHevcNoMarker : MoovProcessor :=
  { sampleP with
    Codec := Hvc1FourCC
    CodecPrivateData := [] }

/-- An HEVC processor whose codec private data holds only a VPS and a PPS
unit (types 32 and 34), no SPS. -/
def pHevcVpsPps : MoovProcessor :=
  { sampleP with
    Codec := Hvc1FourCC
    CodecPrivateData := [0, 0, 0, 1, 0x40, 0, 0, 0, 1, 0x44] }

/-- A processor whose codec private data is exactly one marker, so that the
split yields an empty segment after the first. -/
def pMarkerOnly : MoovProcessor :=
  { sampleP with CodecPrivateData := [0, 0, 0, 1] }

/-- A text-stream processor (codec avc1 so that sample-entry synthesis
succeeds). -/
def pText : MoovProcessor := { sampleP with StreamType := TextStream }

/-- A processor whose timescale does not fit in 32 bits. -/
def pBigTs : MoovProcessor :=
  { sampleP with
    Timescale := 2 ^ 32
    Duration := 3 }

/-- The repeat-expansion example group: explicit start 0, duration 500,
repeat 3. -/
def gRepeat3 : FragmentGroup :=
  { number := none
    durationTicks := some 500
    startTimeTicks := some 0
    repeatCount := some 3 }

/-- The timescale, duration and language of a media box's leading
media-header child, when it has one. -/
def mediaHeaderFields : Mp4Box → Option (Nat × Nat × String)
  | Mp4Box.media (Mp4Box.mediaHeader _ ts dur lang :: _) => some (ts, dur, lang)
  | _ => none

/-- The media-information box built for `pText`. -/
def minfText : Mp4Box :=
  Mp4Box.mediaInformation
    [Mp4Box.dataInformation [Mp4Box.dataReference [Mp4Box.dataEntry 1]],
     Mp4Box.sampleTable
       [Mp4Box.sampleDescription
         [Mp4Box.visualSampleEntry Avc1FourCC 1 640 480 72 72 1 ("AVC Coding") 0x0018
           [Mp4Box.avcConfiguration
             { configurationVersion := 1
               avcProfileIndication := 0
               profileCompatibility := 0
               avcLevelIndication := 0
               lengthSizeMinusOne := 3
               sequenceParameterSets := []
               pictureParameterSets := [] }]],
        Mp4Box.timeToSample, Mp4Box.sampleToChunk, Mp4Box.chunkOffset,
        Mp4Box.sampleSize]]

/-- The sample entry built for `pAvcProt`. -/
def avcProtEntry : Mp4Box :=
  Mp4Box.visualSampleEntry EncvBoxType 1 640 480 72 72 1 ("AVC Coding") 0x0018
    [Mp4Box.avcConfiguration
       { configurationVersion := 1
         avcProfileIndication := 0
         profileCompatibility := 0
         avcLevelIndication := 0
         lengthSizeMinusOne := 3
         sequenceParameterSets := []
         pictureParameterSets := [] },
     Mp4Box.protectionSchemeInfo
       [Mp4Box.originalFormat Avc1FourCC,
        Mp4Box.schemeType CencFourCC 0x00010000,
        Mp4Box.schemeInformation [Mp4Box.trackEncryption 1 8 (List.replicate 16 0)]]]

theorem splitMarker_length_pos (data : List Nat) :
    ¬ (splitMarker data).length < 1 := by
  simp [splitMarker]

theorem naluSegments_eq_tail (p : MoovProcessor) :
    (splitMarker p.CodecPrivateData).tail = naluSegments p := rfl

theorem classifyAvcNalus_err_of_mem_nil (nalus : List (List Nat))
    (h : ([] : List Nat) ∈ nalus) :
    classifyAvcNalus nalus = Except.error Err.indexOutOfRange := by
  induction nalus with
  | nil => cases h
  | cons n rest ih =>
    cases n with
    | nil => rfl
    | cons b bs =>
      have hr : ([] : List Nat) ∈ rest := by
        rcases List.mem_cons.mp h with h1 | h1
        · simp at h1
        · exact h1
      simp [classifyAvcNalus, ih hr]

theorem classifyHevcNalus_err_of_mem_nil (nalus : List (List Nat))
    (h : ([] : List Nat) ∈ nalus) :
    classifyHevcNalus nalus = Except.error Err.indexOutOfRange := by
  induction nalus with
  | nil => cases h
  | cons n rest ih =>
    cases n with
    | nil => rfl
    | cons b bs =>
      have hr : ([] : List Nat) ∈ rest := by
        rcases List.mem_cons.mp h with h1 | h1
        · simp at h1
        · exact h1
      simp [classifyHevcNalus, ih hr]

theorem avcC_err_of_mem_nil (p : MoovProcessor) (h : ([] : List Nat) ∈ naluSegments p) :
    CreateAvcCMp4Box p = Except.error Err.indexOutOfRange := by
  simp only [CreateAvcCMp4Box, if_neg (splitMarker_length_pos p.CodecPrivateData),
    naluSegments_eq_tail, classifyAvcNalus_err_of_mem_nil _ h]

theorem hvcC_err_of_mem_nil (p : MoovProcessor) (h : ([] : List Nat) ∈ naluSegments p) :
    CreateHvcCMp4Box p = Except.error Err.indexOutOfRange := by
  simp only [CreateHvcCMp4Box, if_neg (splitMarker_length_pos p.CodecPrivateData),
    naluSegments_eq_tail, classifyHevcNalus_err_of_mem_nil _ h]

/-- C9: for every CodecPrivateData in which the marker `00 00 00 01` is
immediately followed by another marker or terminates the input — so that the
split yields an empty segment after the first — `CreateAvcCMp4Box` and
`CreateHvcCMp4Box` read byte 0 of that empty segment without a bounds check
and abort with an index-out-of-range panic (modelled as
`Err.indexOutOfRange`) instead of returning an error value. -/
theorem codecPrivateData_empty_segment_panics (p : MoovProcessor)
    (h : ([] : List Nat) ∈ naluSegments p) :
    CreateAvcCMp4Box p = Except.error Err.indexOutOfRange ∧
    CreateHvcCMp4Box p = Except.error Err.indexOutOfRange :=
  ⟨avcC_err_of_mem_nil p h, hvcC_err_of_mem_nil p h⟩

theorem codecPrivateData_empty_segment_panics_witness :
    CreateAvcCMp4Box pMarkerOnly = Except.error Err.indexOutOfRange ∧
    CreateHvcCMp4Box pMarkerOnly = Except.error Err.indexOutOfRange :=
  codecPrivateData_empty_segment_panics pMarkerOnly (by decide)

/-- C4: for every MoovProcessor whose fourCC is neither the AVC fourCC nor
one of the two HEVC variants, `CreateSampleEntryMp4Box` fails with the
unsupported-codec error kind, and the rendered error message names the
offending fourCC. -/
theorem sampleEntry_unsupported_codec (p : MoovProcessor)
    (h1 : p.Codec ≠ Avc1FourCC) (h2 : p.Codec ≠ Hvc1FourCC) (h3 : p.Codec ≠ Hev1FourCC) :
    CreateSampleEntryMp4Box p = Except.error (Err.unknownCodec p.Codec) ∧
    errMessage (Err.unknownCodec p.Codec) =
      "codec " ++ p.Codec ++ " not supported: codec not supported" := by
  constructor
  · simp [CreateSampleEntryMp4Box, h1, h2, h3]
  · rfl

theorem sampleEntry_unsupported_codec_witness :
    CreateSampleEntryMp4Box pAC3 = Except.error (Err.unknownCodec ("AC-3")) ∧
    errMessage (Err.unknownCodec ("AC-3")) =
      "codec " ++ "AC-3" ++ " not supported: codec not supported" :=
  sampleEntry_unsupported_codec pAC3 (by decide) (by decide) (by decide)

/-- C10: the movie header and the media header store the timescale truncated
to 32 bits while their 64-bit duration fields are `Duration * Timescale`
modulo `2 ^ 64`; hence for any timescale of at least `2 ^ 32` the written
timescale differs from the timescale that entered the written duration. -/
theorem header_timescale_truncation (p : MoovProcessor) :
    CreateMvhdMp4Box p = Except.ok (Mp4Box.movieHeader 1 (p.Timescale % 2 ^ 32)
      (p.Duration * p.Timescale % 2 ^ 64) 0x00010000 0x0100 unityMatrix
      ((p.TrackID + 1) % 2 ^ 32)) ∧
    (CreateMdiaMp4Box p).toOption.bind mediaHeaderFields =
      (CreateMdiaMp4Box p).toOption.map
        (fun _ => (p.Timescale % 2 ^ 32, p.Duration * p.Timescale % 2 ^ 64, p.Language)) ∧
    (2 ^ 32 ≤ p.Timescale → p.Timescale % 2 ^ 32 ≠ p.Timescale) := by
  refine ⟨rfl, ?_, ?_⟩
  · cases hm : CreateMinfMp4Box p with
    | error e => simp [CreateMdiaMp4Box, hm, Except.toOption]
    | ok minf =>
      simp [CreateMdiaMp4Box, hm, Except.toOption, mediaHeaderFields, u32, u64]
  · intro hge
    have hlt : p.Timescale % 2 ^ 32 < 2 ^ 32 := Nat.mod_lt _ (by norm_num)
    omega

theorem header_timescale_truncation_witness :
    CreateMvhdMp4Box pBigTs = Except.ok (Mp4Box.movieHeader 1 (pBigTs.Timescale % 2 ^ 32)
      (pBigTs.Duration * pBigTs.Timescale % 2 ^ 64) 0x00010000 0x0100 unityMatrix
      ((pBigTs.TrackID + 1) % 2 ^ 32)) ∧
    (CreateMdiaMp4Box pBigTs).toOption.bind mediaHeaderFields =
      (CreateMdiaMp4Box pBigTs).toOption.map
        (fun _ => (pBigTs.Timescale % 2 ^ 32,
          pBigTs.Duration * pBigTs.Timescale % 2 ^ 64, pBigTs.Language)) ∧
    pBigTs.Timescale % 2 ^ 32 ≠ pBigTs.Timescale :=
  ⟨(header_timescale_truncation pBigTs).1, (header_timescale_truncation pBigTs).2.1,
   (header_timescale_truncation pBigTs).2.2 (by decide)⟩

/-- C1 counterexample: for the second registered HEVC variant `hev1`
(unprotected), the sample entry's box type is `hev1`, not `hvc1` as the
claim states — `CreateHvc1Mp4Box` uses `p.Codec` as the type. -/
theorem hevc_sample_entry_hev1_counterexample :
    CreateSampleEntryMp4Box pHev1 = Except.ok (Mp4Box.visualSampleEntry Hev1FourCC 1 640 480
      72 72 1 ("HEVC Coding") 0x0018
      [Mp4Box.hevcConfiguration { vpsNalus := [], spsNalus := [[0x42]], ppsNalus := [] }]) ∧
    Hev1FourCC ≠ Hvc1FourCC :=
  ⟨rfl, by decide⟩

/-- C1 (amended): for every MoovProcessor whose codec is one of the two
registered HEVC fourCC variants and whose HEVC configuration box succeeds,
`CreateSampleEntryMp4Box` returns a visual sample entry whose box type
equals the codec fourCC itself (`hvc1` or `hev1` respectively), overwritten
to the generic encrypted type `encv` when protected, with compressor name
"HEVC Coding" and the HEVC configuration box as (first) child. -/
theorem hevc_sample_entry_shape (p : MoovProcessor)
    (hc : p.Codec = Hvc1FourCC ∨ p.Codec = Hev1FourCC)
    (c : Mp4Box) (hok : CreateHvcCMp4Box p = Except.ok c) :
    CreateSampleEntryMp4Box p =
      Except.ok (Mp4Box.visualSampleEntry (if p.Protected then EncvBoxType else p.Codec) 1
        (u16 p.Width) (u16 p.Height) 72 72 1 ("HEVC Coding") 0x0018
        (if p.Protected then
          [c, Mp4Box.protectionSchemeInfo
            [Mp4Box.originalFormat p.Codec,
             Mp4Box.schemeType CencFourCC 0x00010000,
             Mp4Box.schemeInformation [Mp4Box.trackEncryption 1 8 p.KID]]]
         else [c])) := by
  have hne : ¬ (p.Codec = Avc1FourCC) := by
    rcases hc with h | h <;> rw [h] <;> decide
  simp only [CreateSampleEntryMp4Box, if_neg hne, if_pos hc, CreateHvc1Mp4Box, hok]
  cases hPr : p.Protected with
  | false => simp
  | true => simp [CreateSinfMp4Box, CreateSchiMp4Box]

theorem hevc_sample_entry_shape_witness :
    CreateSampleEntryMp4Box pHvc1 =
      Except.ok (Mp4Box.visualSampleEntry (if pHvc1.Protected then EncvBoxType else pHvc1.Codec) 1
        (u16 pHvc1.Width) (u16 pHvc1.Height) 72 72 1 ("HEVC Coding") 0x0018
        (if pHvc1.Protected then
          [Mp4Box.hevcConfiguration { vpsNalus := [], spsNalus := [[0x42]], ppsNalus := [] },
           Mp4Box.protectionSchemeInfo
            [Mp4Box.originalFormat pHvc1.Codec,
             Mp4Box.schemeType CencFourCC 0x00010000,
             Mp4Box.schemeInformation [Mp4Box.trackEncryption 1 8 pHvc1.KID]]]
         else [Mp4Box.hevcConfiguration { vpsNalus := [], spsNalus := [[0x42]], ppsNalus := [] }])) :=
  hevc_sample_entry_shape pHvc1 (Or.inl rfl)
    (Mp4Box.hevcConfiguration { vpsNalus := [], spsNalus := [[0x42]], ppsNalus := [] }) rfl

/-- C2: for every protected MoovProcessor with the AVC codec, a successful
`CreateAvc1Mp4Box` result is a visual sample entry whose type is overwritten
to the generic encrypted-visual type `encv` and whose children are exactly
the AVC configuration box followed by the protection-scheme subtree:
original-format box with the real codec fourCC, scheme-type box `cenc`
version 0x00010000, and scheme-information box holding a track-encryption
descriptor with default-is-protected 1, default per-sample IV size 8, and
the given KID. -/
theorem avc_protected_sample_entry (p : MoovProcessor)
    (hp : p.Protected = true) (hc : p.Codec = Avc1FourCC)
    (e : Mp4Box) (hok : CreateAvc1Mp4Box p = Except.ok e) :
    ∃ cfg, CreateAvcCMp4Box p = Except.ok cfg ∧
      e = Mp4Box.visualSampleEntry EncvBoxType 1 (u16 p.Width) (u16 p.Height) 72 72 1
        ("AVC Coding") 0x0018
        [cfg, Mp4Box.protectionSchemeInfo
          [Mp4Box.originalFormat p.Codec,
           Mp4Box.schemeType CencFourCC 0x00010000,
           Mp4Box.schemeInformation [Mp4Box.trackEncryption 1 8 p.KID]]] := by
  cases ha : CreateAvcCMp4Box p with
  | error e2 => simp [CreateAvc1Mp4Box, ha] at hok
  | ok cfg =>
    refine ⟨cfg, rfl, ?_⟩
    simp [CreateAvc1Mp4Box, ha, hp, CreateSinfMp4Box, CreateSchiMp4Box] at hok
    exact hok.symm

theorem avc_protected_sample_entry_witness :
    ∃ cfg, CreateAvcCMp4Box pAvcProt = Except.ok cfg ∧
      avcProtEntry = Mp4Box.visualSampleEntry EncvBoxType 1 (u16 pAvcProt.Width)
        (u16 pAvcProt.Height) 72 72 1 ("AVC Coding") 0x0018
        [cfg, Mp4Box.protectionSchemeInfo
          [Mp4Box.originalFormat pAvcProt.Codec,
           Mp4Box.schemeType CencFourCC 0x00010000,
           Mp4Box.schemeInformation [Mp4Box.trackEncryption 1 8 pAvcProt.KID]]] :=
  avc_protected_sample_entry pAvcProt rfl rfl avcProtEntry rfl

theorem createStbl_shape (p : MoovProcessor) (b : Mp4Box)
    (h : CreateStblMp4Box p = Except.ok b) : ∃ l, b = Mp4Box.sampleTable l := by
  cases hs : CreateStsdMp4Box p with
  | error e => simp [CreateStblMp4Box, hs] at h
  | ok stsd =>
    simp [CreateStblMp4Box, hs] at h
    exact ⟨_, h.symm⟩

/-- C7: a successful media-information box contains the video media header
exactly when the stream type is video and the sound media header exactly
when it is audio; for a text (or any other) stream neither variant is a
child, while the data-information child and a sample-table child are always
present. -/
theorem minf_media_header_variant (p : MoovProcessor) (m : Mp4Box)
    (h : CreateMinfMp4Box p = Except.ok m) :
    ∃ ch l, m = Mp4Box.mediaInformation ch ∧
      ((Mp4Box.videoMediaHeader ∈ ch) ↔ p.StreamType = VideoStream) ∧
      ((Mp4Box.soundMediaHeader ∈ ch) ↔ p.StreamType = AudioStream) ∧
      Mp4Box.dataInformation [Mp4Box.dataReference [Mp4Box.dataEntry FLAG_DREF_SAME_FILE]] ∈ ch ∧
      Mp4Box.sampleTable l ∈ ch := by
  cases hs : CreateStblMp4Box p with
  | error e =>
    simp [CreateMinfMp4Box, CreateDinfMp4Box, CreateDrefMp4Box, hs] at h
  | ok stbl =>
    obtain ⟨l, rfl⟩ := createStbl_shape p stbl hs
    by_cases hv : p.StreamType = VideoStream
    · simp only [CreateMinfMp4Box, CreateDinfMp4Box, CreateDrefMp4Box, hs,
        CreateMhdMp4Box, if_pos hv] at h
      have hm := (Except.ok.inj h).symm
      refine ⟨_, l, hm, ?_, ?_, ?_, ?_⟩
      · simp [hv]
      · constructor
        · intro hmem; exact absurd hmem (by simp)
        · intro ha; exact absurd (hv.symm.trans ha) (by decide)
      · simp
      · simp
    · by_cases ha : p.StreamType = AudioStream
      · simp only [CreateMinfMp4Box, CreateDinfMp4Box, CreateDrefMp4Box, hs,
          CreateMhdMp4Box, if_neg hv, if_pos ha] at h
        have hm := (Except.ok.inj h).symm
        refine ⟨_, l, hm, ?_, ?_, ?_, ?_⟩
        · constructor
          · intro hmem; exact absurd hmem (by simp)
          · intro hv2; exact absurd hv2 hv
        · simp [ha]
        · simp
        · simp
      · simp only [CreateMinfMp4Box, CreateDinfMp4Box, CreateDrefMp4Box, hs,
          CreateMhdMp4Box, if_neg hv, if_neg ha] at h
        have hm := (Except.ok.inj h).symm
        refine ⟨_, l, hm, ?_, ?_, ?_, ?_⟩
        · constructor
          · intro hmem; exact absurd hmem (by simp)
          · intro hv2; exact absurd hv2 hv
        · constructor
          · intro hmem; exact absurd hmem (by simp)
          · intro ha2; exact absurd ha2 ha
        · simp
        · simp

theorem minf_media_header_variant_witness :
    ∃ ch l, minfText = Mp4Box.mediaInformation ch ∧
      ((Mp4Box.videoMediaHeader ∈ ch) ↔ pText.StreamType = VideoStream) ∧
      ((Mp4Box.soundMediaHeader ∈ ch) ↔ pText.StreamType = AudioStream) ∧
      Mp4Box.dataInformation [Mp4Box.dataReference [Mp4Box.dataEntry FLAG_DREF_SAME_FILE]] ∈ ch ∧
      Mp4Box.sampleTable l ∈ ch :=
  minf_media_header_variant pText minfText rfl

theorem classifyAvcNalus_eq_filter (nalus : List (List Nat))
    (h : ∀ n ∈ nalus, n ≠ ([] : List Nat)) :
    classifyAvcNalus nalus =
      Except.ok (nalus.filter isAvcSps, nalus.filter isAvcPps) := by
  induction nalus with
  | nil => rfl
  | cons n rest ih =>
    have hrest : ∀ m ∈ rest, m ≠ ([] : List Nat) :=
      fun m hm => h m (List.mem_cons_of_mem _ hm)
    cases n with
    | nil => exact absurd rfl (h [] (List.mem_cons_self _ _))
    | cons b bs =>
      by_cases h7 : avcGetNaluType b = AVC_NALU_SPS
      · have h8 : ¬ (avcGetNaluType b = AVC_NALU_PPS) := by
          rw [h7]; decide
        simp [classifyAvcNalus, ih hrest, h7, h8, isAvcSps, isAvcPps, List.filter_cons,
          AVC_NALU_SPS, AVC_NALU_PPS]
      · by_cases h8 : avcGetNaluType b = AVC_NALU_PPS
        · simp [classifyAvcNalus, ih hrest, h7, h8, isAvcSps, isAvcPps, List.filter_cons,
            AVC_NALU_SPS, AVC_NALU_PPS]
        · simp [classifyAvcNalus, ih hrest, h7, h8, isAvcSps, isAvcPps, List.filter_cons]

theorem avcProfileFields_eq_spec (sps : List (List Nat))
    (h : firstSpsReadable sps = true) :
    avcProfileFields sps = Except.ok (specAvcFields sps) := by
  cases sps with
  | nil => rfl
  | cons s rest =>
    cases s with
    | nil => simp [firstSpsReadable] at h
    | cons a1 s1 =>
      cases s1 with
      | nil => simp [firstSpsReadable] at h
      | cons a2 s2 =>
        cases s2 with
        | nil => simp [firstSpsReadable] at h
        | cons a3 s3 =>
          cases s3 with
          | nil => simp [firstSpsReadable] at h
          | cons a4 s4 => rfl

theorem avcC_ok_shape (p : MoovProcessor)
    (h1 : ∀ n ∈ naluSegments p, n ≠ ([] : List Nat))
    (h2 : firstSpsReadable ((naluSegments p).filter isAvcSps) = true) :
    CreateAvcCMp4Box p = Except.ok (Mp4Box.avcConfiguration
      { configurationVersion := 1
        avcProfileIndication := (specAvcFields ((naluSegments p).filter isAvcSps)).1
        profileCompatibility := (specAvcFields ((naluSegments p).filter isAvcSps)).2.1
        avcLevelIndication := (specAvcFields ((naluSegments p).filter isAvcSps)).2.2
        lengthSizeMinusOne := 3
        sequenceParameterSets := (naluSegments p).filter isAvcSps
        pictureParameterSets := (naluSegments p).filter isAvcPps }) := by
  simp only [CreateAvcCMp4Box, if_neg (splitMarker_length_pos p.CodecPrivateData),
    naluSegments_eq_tail, classifyAvcNalus_eq_filter _ h1, avcProfileFields_eq_spec _ h2]

/-- C3 (amended): `CreateAvcCMp4Box` splits the input on the marker
`00 00 00 01`, discards the segment before the first marker, collects type-7
segments as SPS and type-8 segments as PPS in encounter order, and — provided
no segment after the first is empty and the first SPS unit (when present) is
at least 4 bytes long, inputs violating this panicking with index out of
range — returns a record with version 1, length-size-minus-one 3, and
profile, compatibility and level read from bytes 1, 2, 3 of the first SPS
unit (all zero, without failing, when no SPS is present); the spec's
round-trip example yields profile 0x42, compatibility 0x00, level 0x1F, one
SPS and one PPS. -/
theorem avcC_record (p : MoovProcessor)
    (h1 : ∀ n ∈ naluSegments p, n ≠ ([] : List Nat))
    (h2 : firstSpsReadable ((naluSegments p).filter isAvcSps) = true) :
    CreateAvcCMp4Box p = Except.ok (Mp4Box.avcConfiguration
      { configurationVersion := 1
        avcProfileIndication := (specAvcFields ((naluSegments p).filter isAvcSps)).1
        profileCompatibility := (specAvcFields ((naluSegments p).filter isAvcSps)).2.1
        avcLevelIndication := (specAvcFields ((naluSegments p).filter isAvcSps)).2.2
        lengthSizeMinusOne := 3
        sequenceParameterSets := (naluSegments p).filter isAvcSps
        pictureParameterSets := (naluSegments p).filter isAvcPps }) ∧
    CreateAvcCMp4Box pAvcExample = Except.ok (Mp4Box.avcConfiguration
      { configurationVersion := 1
        avcProfileIndication := 0x42
        profileCompatibility := 0x00
        avcLevelIndication := 0x1F
        lengthSizeMinusOne := 3
        sequenceParameterSets := [[0x67, 0x42, 0x00, 0x1F]]
        pictureParameterSets := [[0x68]] }) :=
  ⟨avcC_ok_shape p h1 h2, rfl⟩

/-- C3 counterexample: on input `00 00 00 01 67` (a 1-byte SPS) the function
does not return a record at all — the profile-field read at offset 1 aborts
with an index-out-of-range panic, refuting the claim's universal
quantification over every CodecPrivateData byte string. -/
theorem avcC_record_short_sps_counterexample :
    CreateAvcCMp4Box pShortSps = Except.error Err.indexOutOfRange := rfl

theorem avcC_record_witness :
    CreateAvcCMp4Box pAvcExample = Except.ok (Mp4Box.avcConfiguration
      { configurationVersion := 1
        avcProfileIndication := (specAvcFields ((naluSegments pAvcExample).filter isAvcSps)).1
        profileCompatibility := (specAvcFields ((naluSegments pAvcExample).filter isAvcSps)).2.1
        avcLevelIndication := (specAvcFields ((naluSegments pAvcExample).filter isAvcSps)).2.2
        lengthSizeMinusOne := 3
        sequenceParameterSets := (naluSegments pAvcExample).filter isAvcSps
        pictureParameterSets := (naluSegments pAvcExample).filter isAvcPps }) ∧
    CreateAvcCMp4Box pAvcExample = Except.ok (Mp4Box.avcConfiguration
      { configurationVersion := 1
        avcProfileIndication := 0x42
        profileCompatibility := 0x00
        avcLevelIndication := 0x1F
        lengthSizeMinusOne := 3
        sequenceParameterSets := [[0x67, 0x42, 0x00, 0x1F]]
        pictureParameterSets := [[0x68]] }) :=
  avcC_record pAvcExample (by decide) (by decide)

theorem avcProfileFields_err (sps : List (List Nat))
    (h : firstSpsReadable sps = false) :
    avcProfileFields sps = Except.error Err.indexOutOfRange := by
  cases sps with
  | nil => simp [firstSpsReadable] at h
  | cons s rest =>
    cases s with
    | nil => rfl
    | cons a1 s1 =>
      cases s1 with
      | nil => rfl
      | cons a2 s2 =>
        cases s2 with
        | nil => rfl
        | cons a3 s3 =>
          cases s3 with
          | nil => rfl
          | cons a4 s4 => simp [firstSpsReadable] at h

theorem avcC_cases (p : MoovProcessor) :
    (avcCSucceeds p = true ∧ ∃ b, CreateAvcCMp4Box p = Except.ok b) ∨
    (avcCSucceeds p = false ∧ CreateAvcCMp4Box p = Except.error Err.indexOutOfRange) := by
  by_cases hall : (naluSegments p).all (fun n => !n.isEmpty) = true
  · have h1 : ∀ n ∈ naluSegments p, n ≠ ([] : List Nat) := by
      intro n hn hcontra
      subst hcontra
      have hb := List.all_eq_true.mp hall [] hn
      simp at hb
    by_cases hfs : firstSpsReadable ((naluSegments p).filter isAvcSps) = true
    · exact Or.inl ⟨by simp [avcCSucceeds, hall, hfs], _, avcC_ok_shape p h1 hfs⟩
    · have hfs2 : firstSpsReadable ((naluSegments p).filter isAvcSps) = false := by
        cases hx : firstSpsReadable ((naluSegments p).filter isAvcSps) with
        | true => exact absurd hx hfs
        | false => rfl
      refine Or.inr ⟨by simp [avcCSucceeds, hall, hfs2], ?_⟩
      simp only [CreateAvcCMp4Box, if_neg (splitMarker_length_pos p.CodecPrivateData),
        naluSegments_eq_tail, classifyAvcNalus_eq_filter _ h1, avcProfileFields_err _ hfs2]
  · have hallf : (naluSegments p).all (fun n => !n.isEmpty) = false := by
      cases hx : (naluSegments p).all (fun n => !n.isEmpty) with
      | true => exact absurd hx hall
      | false => rfl
    have hmem : ([] : List Nat) ∈ naluSegments p := by
      rw [List.all_eq_true] at hall
      push_neg at hall
      obtain ⟨n, hn, hb⟩ := hall
      have hne : n.isEmpty = true := by
        cases he : n.isEmpty with
        | true => rfl
        | false => exact absurd (by simp [he]) hb
      rwa [List.isEmpty_iff.mp hne] at hn
    exact Or.inr ⟨by simp [avcCSucceeds, hallf], avcC_err_of_mem_nil p hmem⟩

/-- C6 (amended): `CreateAvcCMp4Box` never fails with the
invalid-codec-private-data error — splitting always yields at least one
segment, so the guard is unreachable; it succeeds exactly when every
marker-delimited segment after the first is non-empty and the first SPS unit
(when present) is at least 4 bytes long, and on all other inputs it aborts
with an index-out-of-range panic rather than returning an error. -/
theorem avcC_failure_characterization (p : MoovProcessor) :
    (∀ s, CreateAvcCMp4Box p ≠ Except.error (Err.invalidParam s)) ∧
    ((∃ b, CreateAvcCMp4Box p = Except.ok b) ↔ avcCSucceeds p = true) ∧
    (avcCSucceeds p = false → CreateAvcCMp4Box p = Except.error Err.indexOutOfRange) := by
  rcases avcC_cases p with ⟨hs, b, hb⟩ | ⟨hs, hb⟩
  · refine ⟨?_, ⟨fun _ => hs, fun _ => ⟨b, hb⟩⟩, ?_⟩
    · intro s hcontra
      rw [hb] at hcontra
      exact Except.noConfusion hcontra
    · intro hf
      rw [hs] at hf
      exact Bool.noConfusion hf
  · refine ⟨?_, ⟨?_, ?_⟩, fun _ => hb⟩
    · intro s hcontra
      rw [hb] at hcontra
      exact Err.noConfusion (Except.error.inj hcontra)
    · rintro ⟨b, hb2⟩
      rw [hb] at hb2
      exact Except.noConfusion hb2
    · intro ht
      rw [ht] at hs
      exact Bool.noConfusion hs

/-- C6 counterexample: the input consisting of exactly one marker yields a
non-zero number of marker-delimited segments, yet the function neither
succeeds nor returns the invalid-codec-private-data error — it panics. -/
theorem avcC_failure_characterization_counterexample :
    CreateAvcCMp4Box pMarkerOnly = Except.error Err.indexOutOfRange ∧
    (splitMarker pMarkerOnly.CodecPrivateData).length ≠ 0 :=
  ⟨rfl, by decide⟩

theorem avcC_failure_characterization_witness :
    (∃ b, CreateAvcCMp4Box sampleP = Except.ok b) ∧
    CreateAvcCMp4Box pMarkerOnly = Except.error Err.indexOutOfRange :=
  ⟨(avcC_failure_characterization sampleP).2.1.mpr (by decide),
   (avcC_failure_characterization pMarkerOnly).2.2 (by decide)⟩

theorem classifyHevcNalus_eq_filter (nalus : List (List Nat))
    (h : ∀ n ∈ nalus, n ≠ ([] : List Nat)) :
    classifyHevcNalus nalus = Except.ok
      (nalus.filter isHevcVps, nalus.filter isHevcSps, nalus.filter isHevcPps) := by
  induction nalus with
  | nil => rfl
  | cons n rest ih =>
    have hrest : ∀ m ∈ rest, m ≠ ([] : List Nat) :=
      fun m hm => h m (List.mem_cons_of_mem _ hm)
    cases n with
    | nil => exact absurd rfl (h [] (List.mem_cons_self _ _))
    | cons b bs =>
      by_cases h32 : hevcGetNaluType b = HEVC_NALU_VPS
      · have h33 : ¬ (hevcGetNaluType b = HEVC_NALU_SPS) := by rw [h32]; decide
        have h34 : ¬ (hevcGetNaluType b = HEVC_NALU_PPS) := by rw [h32]; decide
        simp [classifyHevcNalus, ih hrest, h32, h33, h34, isHevcVps, isHevcSps, isHevcPps,
          List.filter_cons, HEVC_NALU_VPS, HEVC_NALU_SPS, HEVC_NALU_PPS]
      · by_cases h33 : hevcGetNaluType b = HEVC_NALU_SPS
        · have h34 : ¬ (hevcGetNaluType b = HEVC_NALU_PPS) := by rw [h33]; decide
          simp [classifyHevcNalus, ih hrest, h32, h33, h34, isHevcVps, isHevcSps, isHevcPps,
            List.filter_cons, HEVC_NALU_VPS, HEVC_NALU_SPS, HEVC_NALU_PPS]
        · by_cases h34 : hevcGetNaluType b = HEVC_NALU_PPS
          · simp [classifyHevcNalus, ih hrest, h32, h33, h34, isHevcVps, isHevcSps, isHevcPps,
              List.filter_cons, HEVC_NALU_VPS, HEVC_NALU_SPS, HEVC_NALU_PPS]
          · simp [classifyHevcNalus, ih hrest, h32, h33, h34, isHevcVps, isHevcSps, isHevcPps,
              List.filter_cons]

/-- C5 (amended): splitting always yields at least one segment, so the
invalid-codec-private-data guard of `CreateHvcCMp4Box` is unreachable — an
input with no start-code segments instead fails with the missing-SPS error;
the function fails with the missing-required-parameter-set error whenever
zero SPS units are found among the (non-empty) segments after the first,
with VPS and PPS lists allowed to be empty, as on the spec's VPS+PPS-only
example. -/
theorem hvcC_error_behavior :
    (∀ data : List Nat, splitMarker data ≠ []) ∧
    (∀ p : MoovProcessor, (∀ n ∈ naluSegments p, n ≠ ([] : List Nat)) →
      (naluSegments p).filter isHevcSps = [] →
      CreateHvcCMp4Box p = Except.error Err.missingHevcSps) ∧
    CreateHvcCMp4Box pHevcVpsPps = Except.error Err.missingHevcSps := by
  refine ⟨fun data => by simp [splitMarker], ?_, rfl⟩
  intro p h1 h2
  simp only [CreateHvcCMp4Box, if_neg (splitMarker_length_pos p.CodecPrivateData),
    naluSegments_eq_tail, classifyHevcNalus_eq_filter _ h1, h2]
  rfl

/-- C5 counterexample: on an input containing no start-code segments at all
(empty codec private data) the function fails with the missing-SPS error,
not with the invalid-codec-private-data error the claim names. -/
theorem hvcC_error_behavior_counterexample :
    CreateHvcCMp4Box pHevcNoMarker = Except.error Err.missingHevcSps ∧
    Err.missingHevcSps ≠ Err.invalidParam ("hvcC") :=
  ⟨rfl, by decide⟩

theorem hvcC_error_behavior_witness :
    splitMarker ([] : List Nat) ≠ [] ∧
    CreateHvcCMp4Box pHevcVpsPps = Except.error Err.missingHevcSps :=
  ⟨hvcC_error_behavior.1 [],
   hvcC_error_behavior.2.1 pHevcVpsPps (by decide) (by decide)⟩

/-- C8: timeline resolution expands every FragmentGroup by its repeat count
(default 1) — the expansion step emits exactly `repeatCount` entries with the
group's duration and start times `resolvedStart + k * duration`, every
successfully resolved non-empty group sequence begins with such an expansion
of its head group, and the spec's example (explicit start 0, duration 500,
repeat 3) resolves to exactly three fragments at starts 0, 500, 1000 of
duration 500. -/
theorem timeline_repeat_expansion :
    (∀ s d r, (expandGroup s d r).length = r ∧
      ∀ k, k < r → (expandGroup s d r)[k]? = some (s + k * d, d)) ∧
    (∀ presDur prevEnd g rest out,
      resolveGroups presDur prevEnd (g :: rest) = Except.ok out →
      ∃ d tl, out = expandGroup (g.startTimeTicks.getD prevEnd) d
        (g.repeatCount.getD 1) ++ tl) ∧
    resolveTimeline 10000000 [gRepeat3] = Except.ok
      [{ startTimeTicks := 0, durationTicks := 500, sequenceIndex := 0 },
       { startTimeTicks := 500, durationTicks := 500, sequenceIndex := 1 },
       { startTimeTicks := 1000, durationTicks := 500, sequenceIndex := 2 }] := by
  refine ⟨?_, ?_, rfl⟩
  · intro s d r
    refine ⟨by simp [expandGroup], ?_⟩
    intro k hk
    simp only [expandGroup, List.getElem?_map, List.getElem?_range hk, Option.map_some']
  · intro presDur prevEnd g rest out h
    simp only [resolveGroups] at h
    split at h
    · exact Except.noConfusion h
    · split at h
      · exact Except.noConfusion h
      · split at h
        · exact Except.noConfusion h
        · exact ⟨_, _, (Except.ok.inj h).symm⟩

theorem timeline_repeat_expansion_witness :
    (expandGroup 0 500 3)[2]? = some (1000, 500) ∧
    (∃ d tl, [(0, 500), (500, 500), (1000, 500)] =
      expandGroup (gRepeat3.startTimeTicks.getD 0) d (gRepeat3.repeatCount.getD 1) ++ tl) :=
  ⟨(timeline_repeat_expansion.1 0 500 3).2 2 (by decide),
   timeline_repeat_expansion.2.1 10000000 0 gRepeat3 [] [(0, 500), (500, 500), (1000, 500)] rfl⟩
